import Mathlib

/-!
Shallow embedding of `custom_components/mypv/config_flow.py`: the mypv
configuration wizard (`MypvConfigFlow`) and options editor
(`MypvOptionsFlowHandler`) of the Home Assistant integration.

Python dictionaries are modelled as association lists preserving insertion
order; dict subscripting is fallible (`KeyError`), so the flow-step entry
points return `Except PyExn`.  The two HTTP probes are modelled by their
outcomes (`GetResult`), supplied through an environment `Env`; every step
also reports the list of HTTP requests it performed, so "no probe was made"
is a statable property.
-/

namespace Mypv

/-- Values that flow through the wizard: decoded JSON scalars, Python `None`,
and lists of strings (the shape of a `monitored_conditions` submission).
Nested objects never reach the fields the code reads. -/
inductive JsonVal where
  | null
  | str (s : String)
  | num (n : Int)
  | boolean (b : Bool)
  | strList (xs : List String)
deriving DecidableEq, Repr

/-- A decoded JSON object / Python dict with `JsonVal` values, in insertion
order. -/
abbrev JsonObj := List (String × JsonVal)

/-- A Python dict from strings to strings (the `_errors` and
`_filtered_sensor_types` dicts), in insertion order. -/
abbrev StrDict := List (String × String)

/-- Python `d.get(k)` on a `JsonObj`: `none` when the key is absent. -/
def dictGet (d : JsonObj) (k : String) : Option JsonVal :=
  (d.find? (fun p => p.1 == k)).map Prod.snd

/-- Python `d[k] = v` on a `JsonObj`: overwrite in place when the key
exists, append otherwise. -/
def dictSet (d : JsonObj) (k : String) (v : JsonVal) : JsonObj :=
  if d.any (fun p => p.1 == k) then
    d.map (fun p => if p.1 == k then (k, v) else p)
  else
    d ++ [(k, v)]

/-- Python `d[k] = v` on a string-valued dict: overwrite in place when the
key exists, append otherwise. -/
def strSet (d : StrDict) (k v : String) : StrDict :=
  if d.any (fun p => p.1 == k) then
    d.map (fun p => if p.1 == k then (k, v) else p)
  else
    d ++ [(k, v)]

/-- Lookup in a string-valued dict. -/
def strGet (d : StrDict) (k : String) : Option String :=
  (d.find? (fun p => p.1 == k)).map Prod.snd

/-- Python `str()` of a decoded value, as used by the f-string that builds
the entry title (`str(None) = "None"`). -/
def pyStr : JsonVal → String
  | .null => "None"
  | .str s => s
  | .num n => toString n
  | .boolean b => if b then "True" else "False"
  | .strList xs =>
      "[" ++ String.intercalate ", " (xs.map (fun s => "\x27" ++ s ++ "\x27")) ++ "]"

/-- Exceptions the step functions can raise to the host runtime. -/
inductive PyExn where
  | keyError (k : String)
  | typeError
deriving DecidableEq, Repr

/-- An HTTP response whose body decoded as a JSON object. -/
structure HttpResponse where
  statusCode : Nat
  json : JsonObj
deriving DecidableEq, Repr

/-- Outcome of `requests.get(url, timeout=10)` followed by JSON decoding:
a response, a `ConnectTimeout`, or any other `RequestException`. -/
inductive GetResult where
  | resp (r : HttpResponse)
  | connectTimeout
  | requestError
deriving DecidableEq, Repr

/-- An HTTP request the flow performed (observable probe trace). -/
inductive Request where
  | getDevJsn (host : JsonVal)
  | getDataJsn (host : JsonVal)
deriving DecidableEq, Repr

/-- The environment the host runtime and the network supply to one flow
session: the hosts of the persisted entries for this domain (both
`mypv_entries` and `_async_current_entries` enumerate them), and the
outcomes of the two probes against the candidate host. -/
structure Env where
  entries : List String
  devResult : GetResult
  dataResult : GetResult
deriving DecidableEq, Repr

/-- The mutable fields of a `MypvConfigFlow` instance. -/
structure FlowState where
  errors : StrDict
  info : JsonObj
  host : JsonVal
  filteredSensorTypes : StrDict
deriving DecidableEq, Repr

/-- The state `MypvConfigFlow.__init__` builds: empty errors, empty info, no host, empty
catalog. -/
def initFlowState : FlowState := ⟨[], [], .null, []⟩

def CONF_HOST : String := "host"

def CONF_MONITORED_CONDITIONS : String := "monitored_conditions"

def DEFAULT_MONITORED_CONDITIONS : List String := ["power1_solar", "temp1"]

/-- The shape of the persisted config entry the wizard creates:
`{host, monitored_conditions, _filtered_sensor_types}` and nothing else. -/
structure EntryData where
  host : JsonVal
  monitoredConditions : JsonVal
  filteredSensorTypes : StrDict
deriving DecidableEq, Repr

/-- The schema attached to a displayed form: the `user` form carries the
pre-filled host default, the `sensors` form carries the default selection
and the multi-select options. -/
inductive FormSchema where
  | hostForm (defaultHost : JsonVal)
  | sensorsForm (defaultSelection : JsonVal) (options : StrDict)
deriving DecidableEq, Repr

/-- A config-flow step's externally observable outcome. -/
inductive FlowResult where
  | showForm (stepId : String) (schema : FormSchema) (errors : StrDict)
  | createEntry (title : String) (data : EntryData)
  | abort (reason : String)
deriving DecidableEq, Repr

/-- The check `_host_in_configuration_exists`: Python `host in mypv_entries(hass)`,
where `mypv_entries` is the set of `entry.data[CONF_HOST]` strings. -/
def host_in_configuration_exists (env : Env) (v : JsonVal) : Bool :=
  env.entries.any (fun h => v == .str h)

/-- The probe `_check_host`: GET `mypv_dev.jsn`; `raise_for_status` raises `HTTPError`
for statuses at or above 400, caught together with `ConnectTimeout` as
`could_not_connect`; any other `RequestException` gives `unexpected_error`;
on success the decoded body replaces `_info`. -/
def check_host (st : FlowState) (resp : GetResult) : FlowState × Bool :=
  match resp with
  | .resp r =>
      if 400 ≤ r.statusCode then
        ({ st with errors := strSet st.errors CONF_HOST "could_not_connect" }, false)
      else
        ({ st with info := r.json }, true)
  | .connectTimeout =>
      ({ st with errors := strSet st.errors CONF_HOST "could_not_connect" }, false)
  | .requestError =>
      ({ st with errors := strSet st.errors CONF_HOST "unexpected_error" }, false)

/-- Modelled from the spec: `SENSOR_TYPES` lives in `const.py`, which is not
part of the sources; per the spec it is "a static, hardcoded table of all
known sensor types" mapping each sensor-type identifier to its
human-readable label (the first component of the table's value tuple).  It
is modelled as an arbitrary association list from identifier to label,
passed as a parameter `sensorTypes` to the functions that read it. -/
def SensorTable := StrDict

/-- The fetch `_get_sensors`: GET `data.jsn`; on success iterate the static table in
order, keeping every key present in the response's key set, mapped to its
label; `raise_for_status` failures and every other `RequestException` leave
an empty catalog. -/
def get_sensors (sensorTypes : StrDict) (st : FlowState) (resp : GetResult) : FlowState :=
  match resp with
  | .resp r =>
      if 400 ≤ r.statusCode then
        { st with filteredSensorTypes := [] }
      else
        { st with filteredSensorTypes :=
            (sensorTypes.foldl
              (fun acc p =>
                if (r.json.map Prod.fst).contains p.1 then strSet acc p.1 p.2 else acc)
              []) }
  | .connectTimeout => { st with filteredSensorTypes := [] }
  | .requestError => { st with filteredSensorTypes := [] }

/-- Step `async_step_sensors`.  On submission: defensively merge `device` and
`number` into `_info` (submission wins when the key is present, the stored
value otherwise, Python `None` when both are absent), then create the entry
titled `"{device} - {number}"` with data
`{host, monitored_conditions, _filtered_sensor_types}`; a submission
without `monitored_conditions` raises `KeyError`.  Without a submission:
show the `sensors` form whose default selection is empty when any entry for
the domain already exists and `DEFAULT_MONITORED_CONDITIONS` otherwise,
over the computed catalog. -/
def async_step_sensors (env : Env) (st : FlowState) (input : Option JsonObj) :
    Except PyExn (FlowResult × FlowState) :=
  match input with
  | some u =>
      let dev := (dictGet u "device").getD ((dictGet st.info "device").getD .null)
      let info1 := dictSet st.info "device" dev
      let num := (dictGet u "number").getD ((dictGet info1 "number").getD .null)
      let info2 := dictSet info1 "number" num
      match dictGet u CONF_MONITORED_CONDITIONS with
      | none => .error (.keyError CONF_MONITORED_CONDITIONS)
      | some mc =>
          .ok (.createEntry (pyStr dev ++ " - " ++ pyStr num)
                ⟨st.host, mc, st.filteredSensorTypes⟩,
               { st with info := info2 })
  | none =>
      let defaultSel : JsonVal :=
        if env.entries.isEmpty then .strList DEFAULT_MONITORED_CONDITIONS
        else .strList []
      .ok (.showForm "sensors" (.sensorsForm defaultSel st.filteredSensorTypes) st.errors, st)

/-- Attach the list of performed HTTP requests to a step outcome; an
exception carries no trace. -/
def withTrace (tr : List Request) :
    Except PyExn (FlowResult × FlowState) →
      Except PyExn (FlowResult × FlowState × List Request)
  | .ok (r, s) => .ok (r, s, tr)
  | .error e => .error e

/-- Step `async_step_user`.  With a submission: read `user_input[CONF_HOST]`
(`KeyError` when absent); if the host is already configured set the field
error `host_exists` and redisplay the form; otherwise probe
`mypv_dev.jsn`, on failure redisplay with the error `_check_host` set, on
success probe `data.jsn`, compute the catalog and continue into the
`sensors` step.  Without a submission: show the form pre-filled with
`192.168.0.0`. -/
def async_step_user (sensorTypes : StrDict) (env : Env) (st : FlowState)
    (input : Option JsonObj) :
    Except PyExn (FlowResult × FlowState × List Request) :=
  match input with
  | some u =>
      match dictGet u CONF_HOST with
      | none => .error (.keyError CONF_HOST)
      | some hv =>
          let st1 := { st with host := hv }
          if host_in_configuration_exists env hv then
            let st2 := { st1 with errors := strSet st1.errors CONF_HOST "host_exists" }
            .ok (.showForm "user" (.hostForm hv) st2.errors, st2, [])
          else
            let checked := check_host st1 env.devResult
            if checked.2 then
              let st3 := get_sensors sensorTypes checked.1 env.dataResult
              withTrace [.getDevJsn hv, .getDataJsn hv]
                (async_step_sensors env st3 none)
            else
              .ok (.showForm "user" (.hostForm hv) checked.1.errors, checked.1,
                [.getDevJsn hv])
  | none =>
      .ok (.showForm "user" (.hostForm (.str "192.168.0.0")) st.errors, st, [])

/-- Step `async_step_import`: `user_input[CONF_HOST]` is read unconditionally
(`TypeError` when the input is `None`, `KeyError` when the key is absent);
abort with reason `host_exists` when the host is configured; otherwise run
both probes, the reachability result unchecked, and hand the caller's input
to the `sensors` step as its submission. -/
def async_step_import (sensorTypes : StrDict) (env : Env) (st : FlowState)
    (input : Option JsonObj) :
    Except PyExn (FlowResult × FlowState × List Request) :=
  match input with
  | none => .error .typeError
  | some u =>
      match dictGet u CONF_HOST with
      | none => .error (.keyError CONF_HOST)
      | some hv =>
          if host_in_configuration_exists env hv then
            .ok (.abort "host_exists", st, [])
          else
            let st1 := { st with host := hv }
            let st2 := (check_host st1 env.devResult).1
            let st3 := get_sensors sensorTypes st2 env.dataResult
            withTrace [.getDevJsn hv, .getDataJsn hv]
              (async_step_sensors env st3 (some u))

/-- The two fields of a persisted config entry that
`MypvOptionsFlowHandler` reads: `config_entry.data.get('_filtered_sensor_types', {})`
and `config_entry.options.get(CONF_MONITORED_CONDITIONS, ...)`; `none`
models an absent key. -/
structure ConfigEntry where
  dataFilteredSensorTypes : Option StrDict
  optionsMonitoredConditions : Option JsonVal
deriving DecidableEq, Repr

/-- An options-flow step's externally observable outcome: the `init` form
(default selection and multi-select options), or the new options record
created wholesale. -/
inductive OptionsResult where
  | showForm (stepId : String) (defaultSelection : JsonVal) (options : StrDict)
  | createEntry (title : String) (data : JsonObj)
deriving DecidableEq, Repr

/-- Step `MypvOptionsFlowHandler.async_step_init` (with the handler's
construction folded in): on submission create the options record
`{monitored_conditions: submitted}` (`KeyError` when the key is absent);
otherwise show the `init` form defaulting to the stored options value or
`DEFAULT_MONITORED_CONDITIONS`, over the catalog frozen in the entry's
data.  The returned request list is the probe trace — the handler performs
none. -/
def async_step_init (entry : ConfigEntry) (input : Option JsonObj) :
    Except PyExn (OptionsResult × List Request) :=
  match input with
  | some u =>
      match dictGet u CONF_MONITORED_CONDITIONS with
      | none => .error (.keyError CONF_MONITORED_CONDITIONS)
      | some mc => .ok (.createEntry "" [(CONF_MONITORED_CONDITIONS, mc)], [])
  | none =>
      let deflt := entry.optionsMonitoredConditions.getD
        (.strList DEFAULT_MONITORED_CONDITIONS)
      let cat := entry.dataFilteredSensorTypes.getD []
      .ok (.showForm "init" deflt cat, [])

/-- The `mypv_dev.jsn` probe outcomes that `_check_host` reports as
`could_not_connect`: a connect-timeout, or a response whose status is at
least 400 (so `raise_for_status` raised `HTTPError`). -/
def devProbeFails (g : GetResult) : Prop :=
  g = .connectTimeout ∨ ∃ r, g = .resp r ∧ 400 ≤ r.statusCode

instance (g : GetResult) : Decidable (devProbeFails g) := by
  unfold devProbeFails
  cases g with
  | resp r => exact decidable_of_iff (400 ≤ r.statusCode) (by simp)
  | connectTimeout => exact .isTrue (.inl rfl)
  | requestError => exact .isFalse (by rintro (h | ⟨r, h, _⟩) <;> simp_all)

/-- The `data.jsn` fetch outcomes `_get_sensors` treats as failures: any
`RequestException` (timeout or otherwise) or a status at or above 400. -/
def dataProbeFails (g : GetResult) : Prop :=
  match g with
  | .resp r => 400 ≤ r.statusCode
  | .connectTimeout => True
  | .requestError => True

instance (g : GetResult) : Decidable (dataProbeFails g) := by
  unfold dataProbeFails
  cases g with
  | resp r => exact inferInstanceAs (Decidable (400 ≤ r.statusCode))
  | connectTimeout => exact .isTrue trivial
  | requestError => exact .isTrue trivial

/-- The flow state after the import path's two unconditional probes:
`_check_host` (its Boolean result discarded) followed by `_get_sensors`. -/
def import_probe_state (sensorTypes : StrDict) (env : Env) (st : FlowState)
    (hv : JsonVal) : FlowState :=
  get_sensors sensorTypes (check_host { st with host := hv } env.devResult).1
    env.dataResult

/-- The `device` value the `sensors` submission persists: the submitted
value when the key is present, else the stored Device Info value, else
Python `None`. -/
def merged_device (u : JsonObj) (st : FlowState) : JsonVal :=
  (dictGet u "device").getD ((dictGet st.info "device").getD .null)

/-- The `number` value the `sensors` submission persists; its fallback
reads the Device Info dict after `device` was merged into it, as the
source assigns `device` first. -/
def merged_number (u : JsonObj) (st : FlowState) : JsonVal :=
  (dictGet u "number").getD
    ((dictGet (dictSet st.info "device" (merged_device u st)) "number").getD .null)

/-- The Device Info dict after the `sensors` submission's defensive merge
of `device` and `number`. -/
def merged_info (u : JsonObj) (st : FlowState) : JsonObj :=
  dictSet (dictSet st.info "device" (merged_device u st)) "number"
    (merged_number u st)

/-! ## Helper lemmas -/

@[simp] theorem withTrace_ok (tr : List Request) (r : FlowResult) (s : FlowState) :
    withTrace tr (.ok (r, s)) = .ok (r, s, tr) := rfl

@[simp] theorem withTrace_error (tr : List Request) (e : PyExn) :
    withTrace tr (.error e) = .error e := rfl

theorem strSet_of_not_mem (d : StrDict) (k v : String)
    (h : d.any (fun p => p.1 == k) = false) : strSet d k v = d ++ [(k, v)] := by
  simp only [strSet, h, Bool.false_eq_true, if_false]

theorem find?_map_set (k v : String) (d : StrDict) :
    (d.map (fun p => if p.1 == k then (k, v) else p)).find? (fun p => p.1 == k)
      = if d.any (fun p => p.1 == k) then some (k, v) else none := by
  induction d with
  | nil => rfl
  | cons p t ih =>
      rw [List.map_cons, List.any_cons]
      by_cases h : p.1 = k
      · have hb : (p.1 == k) = true := by simp [h]
        rw [if_pos hb, List.find?_cons_of_pos _ (by simp), hb, Bool.true_or,
          if_pos rfl]
      · have hb : (p.1 == k) = false := by simp [h]
        rw [if_neg (by simp [h]), List.find?_cons_of_neg _ (by simp [h]), ih, hb,
          Bool.false_or]

theorem strGet_strSet (d : StrDict) (k v : String) :
    strGet (strSet d k v) k = some v := by
  by_cases h : d.any (fun p => p.1 == k) = true
  · unfold strGet strSet
    rw [if_pos h, find?_map_set, if_pos h]
    rfl
  · unfold strGet
    rw [strSet_of_not_mem d k v (by simpa only [Bool.not_eq_true] using h)]
    rw [List.find?_append, List.find?_eq_none.mpr ?nohit]
    · rw [Option.none_or, List.find?_cons_of_pos _ (by simp)]
      rfl
    case nohit =>
      intro x hx hpx
      exact h (List.any_eq_true.mpr ⟨x, hx, hpx⟩)

theorem foldl_strSet_filter (pred : String → Bool) (table : StrDict) :
    (table.map Prod.fst).Nodup →
    ∀ acc : StrDict, (∀ p ∈ table, acc.any (fun q => q.1 == p.1) = false) →
    table.foldl (fun a p => if pred p.1 then strSet a p.1 p.2 else a) acc
      = acc ++ table.filter (fun p => pred p.1) := by
  induction table with
  | nil => intro _ acc _; simp
  | cons hd t ih =>
      intro hnd acc hfresh
      obtain ⟨k, v⟩ := hd
      simp only [List.map_cons, List.nodup_cons] at hnd
      by_cases hp : pred k
      · rw [List.foldl_cons]
        simp only [hp, if_true]
        rw [strSet_of_not_mem acc k v (hfresh (k, v) (by simp))]
        rw [ih hnd.2 (acc ++ [(k, v)]) ?fresh]
        · simp [List.filter_cons, hp]
        case fresh =>
          intro p hpmem
          simp only [List.any_append, Bool.or_eq_false_iff]
          constructor
          · exact hfresh p (List.mem_cons_of_mem _ hpmem)
          · have : k ≠ p.1 := by
              intro hkp
              exact hnd.1 (hkp ▸ List.mem_map_of_mem Prod.fst hpmem)
            simp [this]
      · rw [List.foldl_cons]
        simp only [hp, Bool.false_eq_true, if_false]
        rw [ih hnd.2 acc (fun p hp => hfresh p (List.mem_cons_of_mem _ hp))]
        simp [List.filter_cons, hp]

theorem except_ok_exists {β : Type} {e : Except PyExn β} (h : e.isOk = true) :
    ∃ o, e = .ok o := by
  cases e with
  | ok o => exact ⟨o, rfl⟩
  | error a => exact Bool.noConfusion h

theorem host_not_configured (env : Env) (h : String) (hnew : h ∉ env.entries) :
    host_in_configuration_exists env (.str h) = false := by
  rw [Bool.eq_false_iff]
  intro hc
  obtain ⟨x, hx, hbeq⟩ := List.any_eq_true.mp hc
  have hhx : h = x := by simpa using hbeq
  exact hnew (hhx ▸ hx)

/-! ## Claims -/

/-- C1: For every JSON object returned by the `data.jsn` probe (a response
with status below 400) and the static sensor-type table (distinct keys, as
a Python dict has), the computed Sensor Catalog is the table filtered to
the keys occurring in the response: exactly the keys present in both the
table and the response's key set, each mapped to its label from the table,
enumerated in the table's declared order. -/
theorem c1_catalog_is_ordered_intersection (sensorTypes : StrDict)
    (st : FlowState) (r : HttpResponse) (hok : r.statusCode < 400)
    (hnd : (sensorTypes.map Prod.fst).Nodup) :
    (get_sensors sensorTypes st (.resp r)).filteredSensorTypes
      = sensorTypes.filter (fun p => (r.json.map Prod.fst).contains p.1) := by
  simp only [get_sensors]
  rw [if_neg (by omega)]
  exact foldl_strSet_filter (fun s => (r.json.map Prod.fst).contains s)
    sensorTypes hnd [] (fun p _ => rfl)

/-- Witness for C1 at a concrete table and `data.jsn` response. -/
theorem c1_catalog_is_ordered_intersection_witness :
    (200 : Nat) < 400
    ∧ (([("power1_solar", "Solar power"), ("temp1", "Temperature 1"),
          ("power2", "Power 2")] : StrDict).map Prod.fst).Nodup
    ∧ (get_sensors
          [("power1_solar", "Solar power"), ("temp1", "Temperature 1"),
            ("power2", "Power 2")]
          initFlowState
          (.resp ⟨200, [("power1_solar", .num 1500), ("temp1", .num 45),
            ("unrelated", .num 0)]⟩)).filteredSensorTypes
        = ([("power1_solar", "Solar power"), ("temp1", "Temperature 1"),
            ("power2", "Power 2")] : StrDict).filter
            (fun p => (([("power1_solar", JsonVal.num 1500),
                ("temp1", JsonVal.num 45), ("unrelated", JsonVal.num 0)]
                : JsonObj).map Prod.fst).contains p.1) :=
  ⟨by decide, by decide,
    c1_catalog_is_ordered_intersection _ initFlowState _ (by decide) (by decide)⟩

/-- C2: Submitting a host that is already present among the persisted
entries sets the field error `host_exists`, redisplays the `user` form with
that host pre-filled, performs no HTTP probe (empty request trace), and
creates no entry. -/
theorem c2_existing_host_rejected (sensorTypes : StrDict) (env : Env)
    (st : FlowState) (u : JsonObj) (h : String)
    (hin : dictGet u CONF_HOST = some (.str h)) (hex : h ∈ env.entries) :
    async_step_user sensorTypes env st (some u)
      = .ok (.showForm "user" (.hostForm (.str h))
              (strSet st.errors CONF_HOST "host_exists"),
             { st with errors := strSet st.errors CONF_HOST "host_exists",
                       host := .str h }, [])
    ∧ strGet (strSet st.errors CONF_HOST "host_exists") CONF_HOST
        = some "host_exists" := by
  have hhost : host_in_configuration_exists env (.str h) = true :=
    List.any_eq_true.mpr ⟨h, hex, by simp⟩
  refine ⟨?_, strGet_strSet _ _ _⟩
  simp [async_step_user, hin, hhost]

/-- Witness for C2: the host `192.168.1.5` is already configured. -/
theorem c2_existing_host_rejected_witness :
    dictGet [(CONF_HOST, JsonVal.str "192.168.1.5")] CONF_HOST
        = some (.str "192.168.1.5")
    ∧ "192.168.1.5" ∈ ["192.168.1.5"]
    ∧ async_step_user [] ⟨["192.168.1.5"], .requestError, .requestError⟩
          initFlowState (some [(CONF_HOST, JsonVal.str "192.168.1.5")])
        = .ok (.showForm "user" (.hostForm (.str "192.168.1.5"))
                (strSet initFlowState.errors CONF_HOST "host_exists"),
               { initFlowState with
                  errors := strSet initFlowState.errors CONF_HOST "host_exists",
                  host := .str "192.168.1.5" }, [])
    ∧ strGet (strSet initFlowState.errors CONF_HOST "host_exists") CONF_HOST
        = some "host_exists" :=
  ⟨by decide, by decide,
    (c2_existing_host_rejected [] ⟨["192.168.1.5"], .requestError, .requestError⟩
      initFlowState _ _ (by decide) (by decide)).1,
    (c2_existing_host_rejected [] ⟨["192.168.1.5"], .requestError, .requestError⟩
      initFlowState [(CONF_HOST, JsonVal.str "192.168.1.5")] "192.168.1.5"
      (by decide) (by decide)).2⟩

/-- C3: When the `mypv_dev.jsn` probe of a not-yet-configured host returns
a status of 400 or more, or times out while connecting, the `user` step
sets the field error `could_not_connect` and redisplays the `user` form;
exactly one request was made and no entry is created. -/
theorem c3_connect_failure_redisplays (sensorTypes : StrDict) (env : Env)
    (st : FlowState) (u : JsonObj) (h : String)
    (hin : dictGet u CONF_HOST = some (.str h)) (hnew : h ∉ env.entries)
    (hfail : devProbeFails env.devResult) :
    async_step_user sensorTypes env st (some u)
      = .ok (.showForm "user" (.hostForm (.str h))
              (strSet st.errors CONF_HOST "could_not_connect"),
             { st with errors := strSet st.errors CONF_HOST "could_not_connect",
                       host := .str h }, [.getDevJsn (.str h)])
    ∧ strGet (strSet st.errors CONF_HOST "could_not_connect") CONF_HOST
        = some "could_not_connect" := by
  have hhost := host_not_configured env h hnew
  refine ⟨?_, strGet_strSet _ _ _⟩
  obtain ⟨entries, devR, dataR⟩ := env
  rcases hfail with hto | ⟨r, hr, hge⟩
  · cases hto
    simp [async_step_user, hin, hhost, check_host]
  · cases hr
    simp only [async_step_user, hin, hhost, check_host, Bool.false_eq_true,
      if_false]
    rw [if_pos hge]
    simp

/-- Witness for C3: unconfigured host, probe answers with status 500. -/
theorem c3_connect_failure_redisplays_witness :
    dictGet [(CONF_HOST, JsonVal.str "10.0.0.9")] CONF_HOST
        = some (.str "10.0.0.9")
    ∧ "10.0.0.9" ∉ ([] : List String)
    ∧ devProbeFails (.resp ⟨500, []⟩)
    ∧ async_step_user [] ⟨[], .resp ⟨500, []⟩, .requestError⟩
          initFlowState (some [(CONF_HOST, JsonVal.str "10.0.0.9")])
        = .ok (.showForm "user" (.hostForm (.str "10.0.0.9"))
                (strSet initFlowState.errors CONF_HOST "could_not_connect"),
               { initFlowState with
                  errors := strSet initFlowState.errors CONF_HOST "could_not_connect",
                  host := .str "10.0.0.9" }, [.getDevJsn (.str "10.0.0.9")]) :=
  ⟨by decide, by decide, by decide,
    (c3_connect_failure_redisplays [] ⟨[], .resp ⟨500, []⟩, .requestError⟩
      initFlowState [(CONF_HOST, JsonVal.str "10.0.0.9")] "10.0.0.9"
      (by decide) (by decide) (by decide)).1⟩

/-- C4: When the `mypv_dev.jsn` probe succeeds but the `data.jsn` fetch
fails in any way, the held Sensor Catalog is the empty mapping and the
wizard still advances to the `sensors` form (it does not redisplay the
`user` form). -/
theorem c4_sensor_fetch_failure_advances (sensorTypes : StrDict) (env : Env)
    (st : FlowState) (u : JsonObj) (h : String) (r : HttpResponse)
    (hin : dictGet u CONF_HOST = some (.str h)) (hnew : h ∉ env.entries)
    (hdev : env.devResult = .resp r) (hok : r.statusCode < 400)
    (hfail : dataProbeFails env.dataResult) :
    async_step_user sensorTypes env st (some u)
      = .ok (.showForm "sensors"
              (.sensorsForm
                (if env.entries.isEmpty then .strList DEFAULT_MONITORED_CONDITIONS
                 else .strList []) []) st.errors,
             ⟨st.errors, r.json, .str h, []⟩,
             [.getDevJsn (.str h), .getDataJsn (.str h)]) := by
  have hhost := host_not_configured env h hnew
  obtain ⟨entries, devR, dataR⟩ := env
  cases hdev
  simp only [async_step_user, hin, hhost, Bool.false_eq_true, if_false,
    check_host]
  rw [if_neg (show ¬(400 ≤ r.statusCode) by omega)]
  cases dataR with
  | resp r2 =>
      simp only [dataProbeFails] at hfail
      simp only [get_sensors]
      rw [if_pos (show (400 : Nat) ≤ r2.statusCode from hfail)]
      simp [async_step_sensors]
  | connectTimeout => simp [get_sensors, async_step_sensors]
  | requestError => simp [get_sensors, async_step_sensors]

/-- Witness for C4: device reachable, `data.jsn` fetch times out. -/
theorem c4_sensor_fetch_failure_advances_witness :
    dictGet [(CONF_HOST, JsonVal.str "10.0.0.9")] CONF_HOST
        = some (.str "10.0.0.9")
    ∧ "10.0.0.9" ∉ ([] : List String)
    ∧ (⟨[], .resp ⟨200, [("device", JsonVal.str "E3")]⟩, .connectTimeout⟩
        : Env).devResult = .resp ⟨200, [("device", JsonVal.str "E3")]⟩
    ∧ (200 : Nat) < 400
    ∧ dataProbeFails GetResult.connectTimeout
    ∧ async_step_user []
          ⟨[], .resp ⟨200, [("device", JsonVal.str "E3")]⟩, .connectTimeout⟩
          initFlowState (some [(CONF_HOST, JsonVal.str "10.0.0.9")])
        = .ok (.showForm "sensors"
                (.sensorsForm
                  (if ([] : List String).isEmpty
                   then .strList DEFAULT_MONITORED_CONDITIONS
                   else .strList []) []) initFlowState.errors,
               ⟨initFlowState.errors, [("device", JsonVal.str "E3")],
                .str "10.0.0.9", []⟩,
               [.getDevJsn (.str "10.0.0.9"), .getDataJsn (.str "10.0.0.9")]) :=
  ⟨by decide, by decide, by decide, by decide, by decide,
    c4_sensor_fetch_failure_advances []
      ⟨[], .resp ⟨200, [("device", JsonVal.str "E3")]⟩, .connectTimeout⟩
      initFlowState [(CONF_HOST, JsonVal.str "10.0.0.9")] "10.0.0.9"
      ⟨200, [("device", JsonVal.str "E3")]⟩
      (by decide) (by decide) (by decide) (by decide) (by decide)⟩

/-- What `async_step_sensors` does on submission: the shared computation
behind several claims. -/
theorem sensors_submission_result (env : Env) (st : FlowState) (u : JsonObj)
    (mc : JsonVal) (hmc : dictGet u CONF_MONITORED_CONDITIONS = some mc) :
    async_step_sensors env st (some u)
      = .ok (.createEntry
              (pyStr (merged_device u st) ++ " - " ++ pyStr (merged_number u st))
              ⟨st.host, mc, st.filteredSensorTypes⟩,
             { st with info := merged_info u st }) := by
  simp only [async_step_sensors, hmc, merged_device, merged_number, merged_info]

/-- What `async_step_sensors` does when first displaying the form. -/
theorem sensors_form_display (env : Env) (st : FlowState) :
    async_step_sensors env st none
      = .ok (.showForm "sensors"
              (.sensorsForm
                (if env.entries.isEmpty then
                  JsonVal.strList DEFAULT_MONITORED_CONDITIONS
                 else JsonVal.strList []) st.filteredSensorTypes) st.errors,
             st) := rfl

/-- Folding the import path's probe chain back into `import_probe_state`. -/
theorem import_probe_state_fold (sensorTypes : StrDict) (env : Env)
    (st : FlowState) (hv : JsonVal) :
    get_sensors sensorTypes (check_host { st with host := hv } env.devResult).1
        env.dataResult
      = import_probe_state sensorTypes env st hv := rfl

/-- The fetch `_get_sensors` touches only the catalog field. -/
theorem get_sensors_preserves (sensorTypes : StrDict) (st : FlowState)
    (g : GetResult) :
    (get_sensors sensorTypes st g).errors = st.errors
    ∧ (get_sensors sensorTypes st g).info = st.info
    ∧ (get_sensors sensorTypes st g).host = st.host := by
  cases g with
  | resp r => by_cases hx : 400 ≤ r.statusCode <;> simp [get_sensors, hx]
  | connectTimeout => exact ⟨rfl, rfl, rfl⟩
  | requestError => exact ⟨rfl, rfl, rfl⟩

/-- When the `mypv_dev.jsn` probe fails, `_check_host` leaves `_info` and
the other fields unchanged apart from the error annotation. -/
theorem check_host_failure_preserves (st : FlowState) (g : GetResult)
    (hfail : devProbeFails g) :
    (check_host st g).1.info = st.info
    ∧ (check_host st g).1.host = st.host
    ∧ (check_host st g).1.filteredSensorTypes = st.filteredSensorTypes := by
  rcases hfail with hto | ⟨r, hr, hge⟩
  · cases hto; exact ⟨rfl, rfl, rfl⟩
  · cases hr
    simp only [check_host]
    rw [if_pos hge]
    exact ⟨rfl, rfl, rfl⟩

/-- C5 counterexample: with no persisted entries and a computed catalog
containing only `power1_solar`, the displayed default selection is the full
fixed pair `[power1_solar, temp1]` — not that pair restricted to the
catalog's identifiers, which would be `[power1_solar]`.  The code never
filters the default against the catalog. -/
theorem c5_default_selection_counterexample :
    async_step_sensors ⟨[], .requestError, .requestError⟩
        ⟨[], [], .null, [("power1_solar", "Solar power")]⟩ none
      = .ok (.showForm "sensors"
              (.sensorsForm (.strList ["power1_solar", "temp1"])
                [("power1_solar", "Solar power")]) [],
             ⟨[], [], .null, [("power1_solar", "Solar power")]⟩)
    ∧ JsonVal.strList ["power1_solar", "temp1"]
        ≠ JsonVal.strList ["power1_solar"] :=
  ⟨rfl, by decide⟩

/-- C5 (amended): when the `sensors` form is first displayed the default
selection is empty if at least one entry for the integration exists, and
otherwise is the fixed pair `power1_solar, temp1` verbatim, regardless of
which identifiers the computed Sensor Catalog contains. -/
theorem c5_default_selection (env : Env) (st : FlowState) :
    async_step_sensors env st none
      = .ok (.showForm "sensors"
              (.sensorsForm
                (if env.entries.isEmpty then
                  JsonVal.strList DEFAULT_MONITORED_CONDITIONS
                 else JsonVal.strList []) st.filteredSensorTypes) st.errors,
             st) := rfl

/-- C6: submitting the `sensors` step creates the config entry titled
`"{device} - {number}"` — each taken from the submission when present and
otherwise from the previously fetched Device Info — whose data is exactly
`{host, monitored_conditions = the submitted selection,
_filtered_sensor_types = the frozen catalog}`. -/
theorem c6_entry_shape (env : Env) (st : FlowState) (u : JsonObj)
    (mc : JsonVal) (hmc : dictGet u CONF_MONITORED_CONDITIONS = some mc) :
    async_step_sensors env st (some u)
      = .ok (.createEntry
              (pyStr (merged_device u st) ++ " - " ++ pyStr (merged_number u st))
              ⟨st.host, mc, st.filteredSensorTypes⟩,
             { st with info := merged_info u st }) :=
  sensors_submission_result env st u mc hmc

/-- Witness for C6: device `E3`, number `7`, both known from the probe and
absent from the submission. -/
theorem c6_entry_shape_witness :
    dictGet [(CONF_MONITORED_CONDITIONS, JsonVal.strList ["temp1"])]
        CONF_MONITORED_CONDITIONS = some (.strList ["temp1"])
    ∧ async_step_sensors ⟨[], .requestError, .requestError⟩
          ⟨[], [("device", JsonVal.str "E3"), ("number", JsonVal.str "7")],
            .str "192.168.1.50", [("temp1", "Temperature 1")]⟩
          (some [(CONF_MONITORED_CONDITIONS, JsonVal.strList ["temp1"])])
        = .ok (.createEntry
                (pyStr (merged_device
                    [(CONF_MONITORED_CONDITIONS, JsonVal.strList ["temp1"])]
                    ⟨[], [("device", JsonVal.str "E3"), ("number", JsonVal.str "7")],
                      .str "192.168.1.50", [("temp1", "Temperature 1")]⟩)
                  ++ " - "
                  ++ pyStr (merged_number
                    [(CONF_MONITORED_CONDITIONS, JsonVal.strList ["temp1"])]
                    ⟨[], [("device", JsonVal.str "E3"), ("number", JsonVal.str "7")],
                      .str "192.168.1.50", [("temp1", "Temperature 1")]⟩))
                ⟨.str "192.168.1.50", .strList ["temp1"],
                  [("temp1", "Temperature 1")]⟩,
               { (⟨[], [("device", JsonVal.str "E3"), ("number", JsonVal.str "7")],
                    .str "192.168.1.50", [("temp1", "Temperature 1")]⟩ : FlowState) with
                  info := merged_info
                    [(CONF_MONITORED_CONDITIONS, JsonVal.strList ["temp1"])]
                    ⟨[], [("device", JsonVal.str "E3"), ("number", JsonVal.str "7")],
                      .str "192.168.1.50", [("temp1", "Temperature 1")]⟩ })
    ∧ pyStr (merged_device
          [(CONF_MONITORED_CONDITIONS, JsonVal.strList ["temp1"])]
          ⟨[], [("device", JsonVal.str "E3"), ("number", JsonVal.str "7")],
            .str "192.168.1.50", [("temp1", "Temperature 1")]⟩)
        ++ " - "
        ++ pyStr (merged_number
          [(CONF_MONITORED_CONDITIONS, JsonVal.strList ["temp1"])]
          ⟨[], [("device", JsonVal.str "E3"), ("number", JsonVal.str "7")],
            .str "192.168.1.50", [("temp1", "Temperature 1")]⟩)
      = "E3 - 7" :=
  ⟨rfl,
    c6_entry_shape ⟨[], .requestError, .requestError⟩
      ⟨[], [("device", JsonVal.str "E3"), ("number", JsonVal.str "7")],
        .str "192.168.1.50", [("temp1", "Temperature 1")]⟩
      [(CONF_MONITORED_CONDITIONS, JsonVal.strList ["temp1"])]
      (.strList ["temp1"]) rfl,
    by decide⟩

/-- C7: the import entry point aborts at once with reason `host_exists`
when the supplied host is already configured; otherwise it performs the
`mypv_dev.jsn` and `data.jsn` probes and hands the caller-supplied input to
the `sensors` step as that step's submission, returning its outcome. -/
theorem c7_import_paths (sensorTypes : StrDict) (env : Env) (st : FlowState)
    (u : JsonObj) (h : String) (mc : JsonVal)
    (hin : dictGet u CONF_HOST = some (.str h))
    (hmc : dictGet u CONF_MONITORED_CONDITIONS = some mc) :
    (h ∈ env.entries →
      async_step_import sensorTypes env st (some u)
        = .ok (.abort "host_exists", st, []))
    ∧ (h ∉ env.entries →
      ∃ res st4,
        async_step_sensors env (import_probe_state sensorTypes env st (.str h))
            (some u) = .ok (res, st4)
        ∧ async_step_import sensorTypes env st (some u)
          = .ok (res, st4, [.getDevJsn (.str h), .getDataJsn (.str h)])) := by
  constructor
  · intro hex
    have hhost : host_in_configuration_exists env (.str h) = true :=
      List.any_eq_true.mpr ⟨h, hex, by simp⟩
    simp [async_step_import, hin, hhost]
  · intro hnew
    have hhost := host_not_configured env h hnew
    refine ⟨_, _, sensors_submission_result env
      (import_probe_state sensorTypes env st (.str h)) u mc hmc, ?_⟩
    simp only [async_step_import, hin, hhost, Bool.false_eq_true, if_false]
    rw [import_probe_state_fold,
      sensors_submission_result env
        (import_probe_state sensorTypes env st (.str h)) u mc hmc,
      withTrace_ok]

/-- Witness for C7: the unconfigured-host branch at a concrete input. -/
theorem c7_import_paths_witness :
    dictGet [(CONF_HOST, JsonVal.str "192.168.1.50"),
        (CONF_MONITORED_CONDITIONS, JsonVal.strList ["temp1"])] CONF_HOST
        = some (.str "192.168.1.50")
    ∧ dictGet [(CONF_HOST, JsonVal.str "192.168.1.50"),
        (CONF_MONITORED_CONDITIONS, JsonVal.strList ["temp1"])]
        CONF_MONITORED_CONDITIONS = some (.strList ["temp1"])
    ∧ (("192.168.1.50" ∈ (["10.0.0.1"] : List String) →
        async_step_import [] ⟨["10.0.0.1"], .requestError, .requestError⟩
            initFlowState
            (some [(CONF_HOST, JsonVal.str "192.168.1.50"),
              (CONF_MONITORED_CONDITIONS, JsonVal.strList ["temp1"])])
          = .ok (.abort "host_exists", initFlowState, []))
      ∧ ("192.168.1.50" ∉ (["10.0.0.1"] : List String) →
        ∃ res st4,
          async_step_sensors ⟨["10.0.0.1"], .requestError, .requestError⟩
              (import_probe_state [] ⟨["10.0.0.1"], .requestError, .requestError⟩
                initFlowState (.str "192.168.1.50"))
              (some [(CONF_HOST, JsonVal.str "192.168.1.50"),
                (CONF_MONITORED_CONDITIONS, JsonVal.strList ["temp1"])])
            = .ok (res, st4)
          ∧ async_step_import [] ⟨["10.0.0.1"], .requestError, .requestError⟩
              initFlowState
              (some [(CONF_HOST, JsonVal.str "192.168.1.50"),
                (CONF_MONITORED_CONDITIONS, JsonVal.strList ["temp1"])])
            = .ok (res, st4, [.getDevJsn (.str "192.168.1.50"),
                .getDataJsn (.str "192.168.1.50")]))) :=
  ⟨rfl, rfl,
    c7_import_paths [] ⟨["10.0.0.1"], .requestError, .requestError⟩
      initFlowState
      [(CONF_HOST, JsonVal.str "192.168.1.50"),
        (CONF_MONITORED_CONDITIONS, JsonVal.strList ["temp1"])]
      "192.168.1.50" (.strList ["temp1"]) rfl rfl⟩

/-- C8: submitting the Options Editor's `init` step replaces the options
record wholesale with exactly `{monitored_conditions = the submitted
selection}` — no merge with the prior options — and displaying the form
offers exactly the catalog frozen in the entry's persisted data; neither
path performs any HTTP request (empty request trace). -/
theorem c8_options_wholesale (entry : ConfigEntry) (u : JsonObj)
    (mc : JsonVal) (hmc : dictGet u CONF_MONITORED_CONDITIONS = some mc) :
    async_step_init entry (some u)
      = .ok (.createEntry "" [(CONF_MONITORED_CONDITIONS, mc)], [])
    ∧ async_step_init entry none
      = .ok (.showForm "init"
              (entry.optionsMonitoredConditions.getD
                (.strList DEFAULT_MONITORED_CONDITIONS))
              (entry.dataFilteredSensorTypes.getD []), []) :=
  ⟨by simp only [async_step_init, hmc], rfl⟩

/-- Witness for C8: a stored catalog of three keys, options currently
selecting one, a new two-element subset submitted. -/
theorem c8_options_wholesale_witness :
    dictGet [(CONF_MONITORED_CONDITIONS, JsonVal.strList ["b", "c"])]
        CONF_MONITORED_CONDITIONS = some (.strList ["b", "c"])
    ∧ (async_step_init ⟨some [("a", "A"), ("b", "B"), ("c", "C")],
            some (.strList ["a"])⟩
          (some [(CONF_MONITORED_CONDITIONS, JsonVal.strList ["b", "c"])])
        = .ok (.createEntry ""
            [(CONF_MONITORED_CONDITIONS, .strList ["b", "c"])], [])
      ∧ async_step_init ⟨some [("a", "A"), ("b", "B"), ("c", "C")],
            some (.strList ["a"])⟩ none
        = .ok (.showForm "init"
            ((some (JsonVal.strList ["a"])).getD
              (.strList DEFAULT_MONITORED_CONDITIONS))
            ((some [("a", "A"), ("b", "B"), ("c", "C")]).getD []), [])) :=
  ⟨rfl,
    c8_options_wholesale
      ⟨some [("a", "A"), ("b", "B"), ("c", "C")], some (.strList ["a"])⟩
      [(CONF_MONITORED_CONDITIONS, JsonVal.strList ["b", "c"])]
      (.strList ["b", "c"]) rfl⟩

/-- C9 counterexample: invoking the import entry point with its Python
default `user_input=None` subscripts `None` and raises `TypeError`, which
propagates to the host runtime — so the claim fails for arbitrary input. -/
theorem c9_exception_counterexample :
    async_step_import [] ⟨[], .requestError, .requestError⟩ initFlowState none
      = .error .typeError := rfl

/-- C9 (amended): no exception propagates from any flow-step entry point
provided the invocation supplies the keys the step unconditionally reads —
`host` for `user` and `import` submissions, `monitored_conditions` for
`sensors`, `import` and options `init` submissions — and `import` is given
an input; form-display invocations (no input) of `user`, `sensors` and
`init` never raise.  Every such call returns a directive (`Except.ok`). -/
theorem c9_steps_return_directives (sensorTypes : StrDict) (env : Env)
    (st : FlowState) (entry : ConfigEntry) (u : JsonObj) (hv mc : JsonVal)
    (hh : dictGet u CONF_HOST = some hv)
    (hmc : dictGet u CONF_MONITORED_CONDITIONS = some mc) :
    (∃ o, async_step_user sensorTypes env st none = .ok o)
    ∧ (∃ o, async_step_user sensorTypes env st (some u) = .ok o)
    ∧ (∃ o, async_step_sensors env st none = .ok o)
    ∧ (∃ o, async_step_sensors env st (some u) = .ok o)
    ∧ (∃ o, async_step_import sensorTypes env st (some u) = .ok o)
    ∧ (∃ o, async_step_init entry none = .ok o)
    ∧ (∃ o, async_step_init entry (some u) = .ok o) := by
  refine ⟨⟨_, rfl⟩, ?_, ⟨_, sensors_form_display env st⟩,
    ⟨_, sensors_submission_result env st u mc hmc⟩, ?_, ⟨_, rfl⟩,
    ⟨(.createEntry "" [(CONF_MONITORED_CONDITIONS, mc)], []),
      by simp only [async_step_init, hmc]⟩⟩
  · apply except_ok_exists
    by_cases hex : host_in_configuration_exists env hv
    · simp [async_step_user, hh, hex]
      rfl
    · by_cases hcan : (check_host { st with host := hv } env.devResult).2
      · simp only [async_step_user, hh, hex, Bool.false_eq_true, if_false,
          hcan, if_true]
        rw [sensors_form_display, withTrace_ok]
        rfl
      · simp [async_step_user, hh, hex, hcan]
        rfl
  · apply except_ok_exists
    by_cases hex : host_in_configuration_exists env hv
    · simp [async_step_import, hh, hex]
      rfl
    · simp only [async_step_import, hh, hex, Bool.false_eq_true, if_false]
      rw [import_probe_state_fold,
        sensors_submission_result env
          (import_probe_state sensorTypes env st hv) u mc hmc, withTrace_ok]
      rfl

/-- Witness for C9 (amended) at a concrete environment and submission. -/
theorem c9_steps_return_directives_witness :
    dictGet [(CONF_HOST, JsonVal.str "10.0.0.9"),
        (CONF_MONITORED_CONDITIONS, JsonVal.strList [])] CONF_HOST
        = some (.str "10.0.0.9")
    ∧ dictGet [(CONF_HOST, JsonVal.str "10.0.0.9"),
        (CONF_MONITORED_CONDITIONS, JsonVal.strList [])]
        CONF_MONITORED_CONDITIONS = some (.strList [])
    ∧ ((∃ o, async_step_user [] ⟨[], .connectTimeout, .connectTimeout⟩
          initFlowState none = .ok o)
      ∧ (∃ o, async_step_user [] ⟨[], .connectTimeout, .connectTimeout⟩
          initFlowState
          (some [(CONF_HOST, JsonVal.str "10.0.0.9"),
            (CONF_MONITORED_CONDITIONS, JsonVal.strList [])]) = .ok o)
      ∧ (∃ o, async_step_sensors ⟨[], .connectTimeout, .connectTimeout⟩
          initFlowState none = .ok o)
      ∧ (∃ o, async_step_sensors ⟨[], .connectTimeout, .connectTimeout⟩
          initFlowState
          (some [(CONF_HOST, JsonVal.str "10.0.0.9"),
            (CONF_MONITORED_CONDITIONS, JsonVal.strList [])]) = .ok o)
      ∧ (∃ o, async_step_import [] ⟨[], .connectTimeout, .connectTimeout⟩
          initFlowState
          (some [(CONF_HOST, JsonVal.str "10.0.0.9"),
            (CONF_MONITORED_CONDITIONS, JsonVal.strList [])]) = .ok o)
      ∧ (∃ o, async_step_init ⟨none, none⟩ none = .ok o)
      ∧ (∃ o, async_step_init ⟨none, none⟩
          (some [(CONF_HOST, JsonVal.str "10.0.0.9"),
            (CONF_MONITORED_CONDITIONS, JsonVal.strList [])]) = .ok o)) :=
  ⟨rfl, rfl,
    c9_steps_return_directives [] ⟨[], .connectTimeout, .connectTimeout⟩
      initFlowState ⟨none, none⟩
      [(CONF_HOST, JsonVal.str "10.0.0.9"),
        (CONF_MONITORED_CONDITIONS, JsonVal.strList [])]
      (.str "10.0.0.9") (.strList []) rfl rfl⟩

/-- C10: in the import path the reachability probe's result is discarded.
With the `mypv_dev.jsn` probe failing (so Device Info stays the fresh
session's empty dict) and a caller-supplied selection omitting `device`
and `number`, the import still performs both probes, still reaches the
`sensors` step, and creates an entry titled `"None - None"` from the
missing values. -/
theorem c10_import_discards_probe_result (sensorTypes : StrDict) (env : Env)
    (st : FlowState) (u : JsonObj) (h : String) (mc : JsonVal)
    (hin : dictGet u CONF_HOST = some (.str h)) (hnew : h ∉ env.entries)
    (hfail : devProbeFails env.devResult) (hinfo : st.info = [])
    (hdev : dictGet u "device" = none) (hnum : dictGet u "number" = none)
    (hmc : dictGet u CONF_MONITORED_CONDITIONS = some mc) :
    ∃ st4, async_step_import sensorTypes env st (some u)
      = .ok (.createEntry "None - None"
              ⟨.str h, mc,
                (import_probe_state sensorTypes env st (.str h)).filteredSensorTypes⟩,
             st4, [.getDevJsn (.str h), .getDataJsn (.str h)]) := by
  have hhost := host_not_configured env h hnew
  have hchk := check_host_failure_preserves { st with host := .str h }
    env.devResult hfail
  have hgs := get_sensors_preserves sensorTypes
    (check_host { st with host := .str h } env.devResult).1 env.dataResult
  have hst3info : (import_probe_state sensorTypes env st (.str h)).info = [] := by
    rw [import_probe_state, hgs.2.1, hchk.1]
    exact hinfo
  have hst3host : (import_probe_state sensorTypes env st (.str h)).host
      = .str h := by
    rw [import_probe_state, hgs.2.2, hchk.2.1]
  have hmd : merged_device u (import_probe_state sensorTypes env st (.str h))
      = .null := by
    rw [merged_device, hdev, hst3info]
    rfl
  have hmn : merged_number u (import_probe_state sensorTypes env st (.str h))
      = .null := by
    rw [merged_number, hnum, hst3info]
    rfl
  refine ⟨{ import_probe_state sensorTypes env st (.str h) with
    info := merged_info u (import_probe_state sensorTypes env st (.str h)) }, ?_⟩
  simp only [async_step_import, hin, hhost, Bool.false_eq_true, if_false]
  rw [import_probe_state_fold,
    sensors_submission_result env
      (import_probe_state sensorTypes env st (.str h)) u mc hmc, withTrace_ok,
    hmd, hmn, hst3host]
  rfl

/-- Witness for C10: unreachable device, submission carrying only host and
selection. -/
theorem c10_import_discards_probe_result_witness :
    dictGet [(CONF_HOST, JsonVal.str "10.0.0.9"),
        (CONF_MONITORED_CONDITIONS, JsonVal.strList ["temp1"])] CONF_HOST
        = some (.str "10.0.0.9")
    ∧ "10.0.0.9" ∉ ([] : List String)
    ∧ devProbeFails GetResult.connectTimeout
    ∧ (initFlowState.info = ([] : JsonObj))
    ∧ dictGet [(CONF_HOST, JsonVal.str "10.0.0.9"),
        (CONF_MONITORED_CONDITIONS, JsonVal.strList ["temp1"])] "device" = none
    ∧ dictGet [(CONF_HOST, JsonVal.str "10.0.0.9"),
        (CONF_MONITORED_CONDITIONS, JsonVal.strList ["temp1"])] "number" = none
    ∧ dictGet [(CONF_HOST, JsonVal.str "10.0.0.9"),
        (CONF_MONITORED_CONDITIONS, JsonVal.strList ["temp1"])]
        CONF_MONITORED_CONDITIONS = some (.strList ["temp1"])
    ∧ (∃ st4, async_step_import []
          ⟨[], .connectTimeout, .connectTimeout⟩ initFlowState
          (some [(CONF_HOST, JsonVal.str "10.0.0.9"),
            (CONF_MONITORED_CONDITIONS, JsonVal.strList ["temp1"])])
        = .ok (.createEntry "None - None"
                ⟨.str "10.0.0.9", .strList ["temp1"],
                  (import_probe_state [] ⟨[], .connectTimeout, .connectTimeout⟩
                    initFlowState (.str "10.0.0.9")).filteredSensorTypes⟩,
               st4, [.getDevJsn (.str "10.0.0.9"),
                 .getDataJsn (.str "10.0.0.9")])) :=
  ⟨rfl, by decide, by decide, rfl, rfl, rfl, rfl,
    c10_import_discards_probe_result [] ⟨[], .connectTimeout, .connectTimeout⟩
      initFlowState
      [(CONF_HOST, JsonVal.str "10.0.0.9"),
        (CONF_MONITORED_CONDITIONS, JsonVal.strList ["temp1"])]
      "10.0.0.9" (.strList ["temp1"]) rfl (by decide) (by decide) rfl rfl rfl
      rfl⟩

end Mypv
